import Mathlib

set_option maxRecDepth 10000

/-
Verification of HelperForKeyboardReaderIOKit (MacOSX/IOKit keyboard reader).

Shallow embedding of the data model and operations of
src/MacOSX/IOKit/HelperForKeyboardReaderIOKit.cpp: the per-key table built by
PopulateVectorOfKeyInfo, the element-resolution scan FindKeypressCookies, the
polling function CountOfCurrentlyDepressedKeys, the queue drain loop
ReadFromQueue_Experimental, and the teardown order of PrivateImpl.

Driver-side behaviour (IOKit calls) is modelled by explicit oracle inputs:
copyMatchingElements returns a list of element descriptors, getNextEvent
returns a list of (IOReturn, event) responses, getElementValue is a function
from cookies to values.  The error-logger functor is modelled by a Bool
(present or empty) together with the list of messages delivered to it.
The model follows the non-debug build: assert(...) is a no-op.
-/

/-- A Core Foundation value read out of an element descriptor dictionary:
either a CFNumber that converts to a long via CFNumberGetValue, or a value
of some other type (covering non-number CF types and failed conversions). -/
inductive CFValue where
  | num (n : Int)
  | nonNumeric
deriving DecidableEq

/-- One element descriptor from the array returned by copyMatchingElements:
a CF dictionary from which FindKeypressCookies reads the cookie, usage and
usage-page keys.  A field is `none` when CFDictionaryGetValue returns 0. -/
structure ElementDescriptor where
  cookieField : Option CFValue
  usageField : Option CFValue
  usagePageField : Option CFValue
deriving DecidableEq

/-- The extraction pattern FindKeypressCookies applies to each of the three
fields: the value must be present, be a CFNumber, and convert successfully;
otherwise extraction fails for that field. -/
def getNumberValue : Option CFValue → Option Int
  | some (CFValue.num n) => some n
  | _ => none

/-- PerKeyData: human-readable name, USB usage id, the mac cookie bound by
element resolution (0 when unset), and the app-specific ignore flag. -/
structure PerKeyData where
  name : String
  usbOfficialUsageID : Nat
  macCookieValue : Int
  mustBeIgnoredByOurApplication : Bool
deriving DecidableEq

/-- PerKeyData.PushOneItem builds one entry; the table stores it in order. -/
def mkKey (keyName : String) (usageId : Nat) (cookie : Int) (ignore : Bool) : PerKeyData :=
  PerKeyData.mk keyName usageId cookie ignore

/-- kHIDPage_KeyboardOrKeypad from the HID usage tables. -/
def kHIDPage_KeyboardOrKeypad : Int := 7

/-- kIOReturnSuccess. -/
def kIOReturnSuccess : Int := 0

/-- kIOReturnUnderrun, the distinguished queue-empty status. -/
def kIOReturnUnderrun : Int := 0xe00002e7

/-- The table built by PopulateVectorOfKeyInfo: the sentinel at index 0
followed by the 164 generated entries, in source order, each with its USB
usage id, a zero cookie, and the FORCE_APPLICATION_TO_IGNORE_THIS_KEY flag
exactly where the source passes it. -/
def populateVectorOfKeyInfo : List PerKeyData := [
  mkKey "BOGUS PLACEHOLDER AT INDEX ZERO" 0 0 false,
  mkKey "kHIDUsage_KeyboardErrorRollOver" 1 0 true,
  mkKey "kHIDUsage_KeyboardPOSTFail" 2 0 true,
  mkKey "kHIDUsage_KeyboardErrorUndefined" 3 0 true,
  mkKey "kHIDUsage_KeyboardA" 4 0 false,
  mkKey "kHIDUsage_KeyboardB" 5 0 false,
  mkKey "kHIDUsage_KeyboardC" 6 0 false,
  mkKey "kHIDUsage_KeyboardD" 7 0 false,
  mkKey "kHIDUsage_KeyboardE" 8 0 false,
  mkKey "kHIDUsage_KeyboardF" 9 0 false,
  mkKey "kHIDUsage_KeyboardG" 10 0 false,
  mkKey "kHIDUsage_KeyboardH" 11 0 false,
  mkKey "kHIDUsage_KeyboardI" 12 0 false,
  mkKey "kHIDUsage_KeyboardJ" 13 0 false,
  mkKey "kHIDUsage_KeyboardK" 14 0 false,
  mkKey "kHIDUsage_KeyboardL" 15 0 false,
  mkKey "kHIDUsage_KeyboardM" 16 0 false,
  mkKey "kHIDUsage_KeyboardN" 17 0 false,
  mkKey "kHIDUsage_KeyboardO" 18 0 false,
  mkKey "kHIDUsage_KeyboardP" 19 0 false,
  mkKey "kHIDUsage_KeyboardQ" 20 0 false,
  mkKey "kHIDUsage_KeyboardR" 21 0 false,
  mkKey "kHIDUsage_KeyboardS" 22 0 false,
  mkKey "kHIDUsage_KeyboardT" 23 0 false,
  mkKey "kHIDUsage_KeyboardU" 24 0 false,
  mkKey "kHIDUsage_KeyboardV" 25 0 false,
  mkKey "kHIDUsage_KeyboardW" 26 0 false,
  mkKey "kHIDUsage_KeyboardX" 27 0 false,
  mkKey "kHIDUsage_KeyboardY" 28 0 false,
  mkKey "kHIDUsage_KeyboardZ" 29 0 false,
  mkKey "kHIDUsage_Keyboard1" 30 0 false,
  mkKey "kHIDUsage_Keyboard2" 31 0 false,
  mkKey "kHIDUsage_Keyboard3" 32 0 false,
  mkKey "kHIDUsage_Keyboard4" 33 0 false,
  mkKey "kHIDUsage_Keyboard5" 34 0 false,
  mkKey "kHIDUsage_Keyboard6" 35 0 false,
  mkKey "kHIDUsage_Keyboard7" 36 0 false,
  mkKey "kHIDUsage_Keyboard8" 37 0 false,
  mkKey "kHIDUsage_Keyboard9" 38 0 false,
  mkKey "kHIDUsage_Keyboard0" 39 0 false,
  mkKey "kHIDUsage_KeyboardReturnOrEnter" 40 0 false,
  mkKey "kHIDUsage_KeyboardEscape" 41 0 false,
  mkKey "kHIDUsage_KeyboardDeleteOrBackspace" 42 0 false,
  mkKey "kHIDUsage_KeyboardTab" 43 0 false,
  mkKey "kHIDUsage_KeyboardSpacebar" 44 0 false,
  mkKey "kHIDUsage_KeyboardHyphen" 45 0 false,
  mkKey "kHIDUsage_KeyboardEqualSign" 46 0 false,
  mkKey "kHIDUsage_KeyboardOpenBracket" 47 0 false,
  mkKey "kHIDUsage_KeyboardCloseBracket" 48 0 false,
  mkKey "kHIDUsage_KeyboardBackslash" 49 0 false,
  mkKey "kHIDUsage_KeyboardNonUSPound" 50 0 false,
  mkKey "kHIDUsage_KeyboardSemicolon" 51 0 false,
  mkKey "kHIDUsage_KeyboardQuote" 52 0 false,
  mkKey "kHIDUsage_KeyboardGraveAccentAndTilde" 53 0 false,
  mkKey "kHIDUsage_KeyboardComma" 54 0 false,
  mkKey "kHIDUsage_KeyboardPeriod" 55 0 false,
  mkKey "kHIDUsage_KeyboardSlash" 56 0 false,
  mkKey "kHIDUsage_KeyboardCapsLock" 57 0 false,
  mkKey "kHIDUsage_KeyboardF1" 58 0 true,
  mkKey "kHIDUsage_KeyboardF2" 59 0 true,
  mkKey "kHIDUsage_KeyboardF3" 60 0 true,
  mkKey "kHIDUsage_KeyboardF4" 61 0 true,
  mkKey "kHIDUsage_KeyboardF5" 62 0 true,
  mkKey "kHIDUsage_KeyboardF6" 63 0 true,
  mkKey "kHIDUsage_KeyboardF7" 64 0 true,
  mkKey "kHIDUsage_KeyboardF8" 65 0 true,
  mkKey "kHIDUsage_KeyboardF9" 66 0 true,
  mkKey "kHIDUsage_KeyboardF10" 67 0 true,
  mkKey "kHIDUsage_KeyboardF11" 68 0 true,
  mkKey "kHIDUsage_KeyboardF12" 69 0 true,
  mkKey "kHIDUsage_KeyboardPrintScreen" 70 0 true,
  mkKey "kHIDUsage_KeyboardScrollLock" 71 0 true,
  mkKey "kHIDUsage_KeyboardPause" 72 0 true,
  mkKey "kHIDUsage_KeyboardInsert" 73 0 true,
  mkKey "kHIDUsage_KeyboardHome" 74 0 true,
  mkKey "kHIDUsage_KeyboardPageUp" 75 0 true,
  mkKey "kHIDUsage_KeyboardDeleteForward" 76 0 true,
  mkKey "kHIDUsage_KeyboardEnd" 77 0 true,
  mkKey "kHIDUsage_KeyboardPageDown" 78 0 true,
  mkKey "kHIDUsage_KeyboardRightArrow" 79 0 true,
  mkKey "kHIDUsage_KeyboardLeftArrow" 80 0 true,
  mkKey "kHIDUsage_KeyboardDownArrow" 81 0 true,
  mkKey "kHIDUsage_KeyboardUpArrow" 82 0 true,
  mkKey "kHIDUsage_KeypadNumLock" 83 0 true,
  mkKey "kHIDUsage_KeypadSlash" 84 0 true,
  mkKey "kHIDUsage_KeypadAsterisk" 85 0 true,
  mkKey "kHIDUsage_KeypadHyphen" 86 0 true,
  mkKey "kHIDUsage_KeypadPlus" 87 0 true,
  mkKey "kHIDUsage_KeypadEnter" 88 0 true,
  mkKey "kHIDUsage_Keypad1" 89 0 true,
  mkKey "kHIDUsage_Keypad2" 90 0 true,
  mkKey "kHIDUsage_Keypad3" 91 0 true,
  mkKey "kHIDUsage_Keypad4" 92 0 true,
  mkKey "kHIDUsage_Keypad5" 93 0 true,
  mkKey "kHIDUsage_Keypad6" 94 0 true,
  mkKey "kHIDUsage_Keypad7" 95 0 true,
  mkKey "kHIDUsage_Keypad8" 96 0 true,
  mkKey "kHIDUsage_Keypad9" 97 0 true,
  mkKey "kHIDUsage_Keypad0" 98 0 true,
  mkKey "kHIDUsage_KeypadPeriod" 99 0 true,
  mkKey "kHIDUsage_KeyboardNonUSBackslash" 100 0 false,
  mkKey "kHIDUsage_KeyboardApplication" 101 0 false,
  mkKey "kHIDUsage_KeyboardPower" 102 0 true,
  mkKey "kHIDUsage_KeypadEqualSign" 103 0 true,
  mkKey "kHIDUsage_KeyboardF13" 104 0 true,
  mkKey "kHIDUsage_KeyboardF14" 105 0 true,
  mkKey "kHIDUsage_KeyboardF15" 106 0 true,
  mkKey "kHIDUsage_KeyboardF16" 107 0 true,
  mkKey "kHIDUsage_KeyboardF17" 108 0 true,
  mkKey "kHIDUsage_KeyboardF18" 109 0 true,
  mkKey "kHIDUsage_KeyboardF19" 110 0 true,
  mkKey "kHIDUsage_KeyboardF20" 111 0 true,
  mkKey "kHIDUsage_KeyboardF21" 112 0 true,
  mkKey "kHIDUsage_KeyboardF22" 113 0 true,
  mkKey "kHIDUsage_KeyboardF23" 114 0 true,
  mkKey "kHIDUsage_KeyboardF24" 115 0 true,
  mkKey "kHIDUsage_KeyboardExecute" 116 0 true,
  mkKey "kHIDUsage_KeyboardHelp" 117 0 true,
  mkKey "kHIDUsage_KeyboardMenu" 118 0 true,
  mkKey "kHIDUsage_KeyboardSelect" 119 0 true,
  mkKey "kHIDUsage_KeyboardStop" 120 0 true,
  mkKey "kHIDUsage_KeyboardAgain" 121 0 true,
  mkKey "kHIDUsage_KeyboardUndo" 122 0 true,
  mkKey "kHIDUsage_KeyboardCut" 123 0 true,
  mkKey "kHIDUsage_KeyboardCopy" 124 0 true,
  mkKey "kHIDUsage_KeyboardPaste" 125 0 true,
  mkKey "kHIDUsage_KeyboardFind" 126 0 true,
  mkKey "kHIDUsage_KeyboardMute" 127 0 true,
  mkKey "kHIDUsage_KeyboardVolumeUp" 128 0 true,
  mkKey "kHIDUsage_KeyboardVolumeDown" 129 0 true,
  mkKey "kHIDUsage_KeyboardLockingCapsLock" 130 0 true,
  mkKey "kHIDUsage_KeyboardLockingNumLock" 131 0 true,
  mkKey "kHIDUsage_KeyboardLockingScrollLock" 132 0 true,
  mkKey "kHIDUsage_KeypadComma" 133 0 true,
  mkKey "kHIDUsage_KeypadEqualSignAS400" 134 0 true,
  mkKey "kHIDUsage_KeyboardInternational1" 135 0 false,
  mkKey "kHIDUsage_KeyboardInternational2" 136 0 false,
  mkKey "kHIDUsage_KeyboardInternational3" 137 0 false,
  mkKey "kHIDUsage_KeyboardInternational4" 138 0 false,
  mkKey "kHIDUsage_KeyboardInternational5" 139 0 false,
  mkKey "kHIDUsage_KeyboardInternational6" 140 0 false,
  mkKey "kHIDUsage_KeyboardInternational7" 141 0 false,
  mkKey "kHIDUsage_KeyboardInternational8" 142 0 false,
  mkKey "kHIDUsage_KeyboardInternational9" 143 0 false,
  mkKey "kHIDUsage_KeyboardLANG1" 144 0 false,
  mkKey "kHIDUsage_KeyboardLANG2" 145 0 false,
  mkKey "kHIDUsage_KeyboardLANG3" 146 0 false,
  mkKey "kHIDUsage_KeyboardLANG4" 147 0 false,
  mkKey "kHIDUsage_KeyboardLANG5" 148 0 false,
  mkKey "kHIDUsage_KeyboardLANG6" 149 0 false,
  mkKey "kHIDUsage_KeyboardLANG7" 150 0 false,
  mkKey "kHIDUsage_KeyboardLANG8" 151 0 false,
  mkKey "kHIDUsage_KeyboardLANG9" 152 0 false,
  mkKey "kHIDUsage_KeyboardAlternateErase" 153 0 false,
  mkKey "kHIDUsage_KeyboardSysReqOrAttention" 154 0 false,
  mkKey "kHIDUsage_KeyboardCancel" 155 0 false,
  mkKey "kHIDUsage_KeyboardClear" 156 0 false,
  mkKey "kHIDUsage_KeyboardPrior" 157 0 false,
  mkKey "kHIDUsage_KeyboardReturn" 158 0 false,
  mkKey "kHIDUsage_KeyboardSeparator" 159 0 false,
  mkKey "kHIDUsage_KeyboardOut" 160 0 false,
  mkKey "kHIDUsage_KeyboardOper" 161 0 false,
  mkKey "kHIDUsage_KeyboardClearOrAgain" 162 0 false,
  mkKey "kHIDUsage_KeyboardCrSelOrProps" 163 0 false,
  mkKey "kHIDUsage_KeyboardExSel" 164 0 false]

/-- PopulateVectorOfKeyInfo as an operation on the current table: a second
call on an already-populated table asserts and bails out with false,
leaving the table as it was. -/
def populateVectorOfKeyInfoOp (current : List PerKeyData) : Bool × List PerKeyData :=
  if current.isEmpty then (true, populateVectorOfKeyInfo) else (false, current)

/-- LogErrorWhenFunctorIsntEmpty: the message reaches the error logger only
when the functor is nonempty.  The List String is the sequence of messages
delivered to the callback so far. -/
def LogErrorWhenFunctorIsntEmpty (functorPresent : Bool) (log : List String) (msg : String) : List String :=
  if functorPresent then log ++ [msg] else log

/-- State carried through the FindKeypressCookies element loop: whether the
error-logger functor is nonempty, the key table, and the messages delivered
to the logger so far. -/
structure ScanState where
  functorPresent : Bool
  keys : List PerKeyData
  log : List String
deriving DecidableEq

/-- The body of the FindKeypressCookies element loop for one descriptor
(non-debug build: the duplicate-cookie assert is a no-op).  A missing or
non-numeric cookie is skipped with only a debug log (no logger call); a
missing or non-numeric usage or usage page is skipped after reporting a
message; a keyboard-page descriptor with an in-range usage binds the cookie
into the table slot unless that slot is already bound. -/
def processElement (st : ScanState) (e : ElementDescriptor) : ScanState :=
  match getNumberValue e.cookieField with
  | none => st
  | some cookie =>
    match getNumberValue e.usageField with
    | none =>
      { st with log := LogErrorWhenFunctorIsntEmpty st.functorPresent st.log "A cookie without a usage id?" }
    | some usage =>
      match getNumberValue e.usagePageField with
      | none =>
        { st with log := LogErrorWhenFunctorIsntEmpty st.functorPresent st.log "A cookie without a usage page?" }
      | some usagePage =>
        if usagePage = kHIDPage_KeyboardOrKeypad then
          if (st.keys.length : Int) ≤ usage then st
          else if usage < 0 then st
          else
            match st.keys.get? usage.toNat with
            | none => st
            | some k =>
              if k.macCookieValue ≠ 0 then st
              else { st with keys := st.keys.set usage.toNat { k with macCookieValue := cookie } }
        else st

/-- The score loop at the end of FindKeypressCookies (also reused by
AddElementsToQueue and CountOfCurrentlyDepressedKeys as a filter): count the
keys with a bound cookie that are not ignored. -/
def scoreOfKeys (keys : List PerKeyData) : Nat :=
  keys.foldl
    (fun score k =>
      if k.macCookieValue ≠ 0 ∧ k.mustBeIgnoredByOurApplication = false then score + 1 else score)
    0

/-- The declarative count the specification speaks about: the number of Key
Table entries with a bound element handle that are not marked ignored. -/
def resolvedNonIgnoredCount (keys : List PerKeyData) : Nat :=
  (keys.filter
    (fun k => decide (k.macCookieValue ≠ 0 ∧ k.mustBeIgnoredByOurApplication = false))).length

/-- The element loop of FindKeypressCookies over the descriptor array. -/
def findKeypressCookiesScan (functorPresent : Bool) (keys : List PerKeyData)
    (elements : List ElementDescriptor) : ScanState :=
  elements.foldl processElement (ScanState.mk functorPresent keys [])

/-- FindKeypressCookies: run copyMatchingElements (modelled as an oracle
result), scan the descriptors on success or report the failure, then run the
score loop; the call reports success exactly when the score exceeds 40. -/
def findKeypressCookies (functorPresent : Bool) (keys : List PerKeyData)
    (copyResult : Except Int (List ElementDescriptor)) : ScanState × Bool :=
  match copyResult with
  | Except.error code =>
    let st : ScanState :=
      ScanState.mk functorPresent keys
        (LogErrorWhenFunctorIsntEmpty functorPresent []
          ("copyMatchingElements failed. code: " ++ toString code))
    (st, decide (40 < scoreOfKeys st.keys))
  | Except.ok elements =>
    let st := findKeypressCookiesScan functorPresent keys elements
    (st, decide (40 < scoreOfKeys st.keys))

/-- The four driver resources owned by PrivateImpl, each flag recording
whether the corresponding handle is non-null at destruction time. -/
structure PrivateImpl where
  hidDevice : Bool
  hidDeviceInterface : Bool
  plugInInterface : Bool
  hidQueue : Bool
deriving DecidableEq

/-- One release step performed by the PrivateImpl destructor. -/
inductive ReleaseAction where
  | closeDeviceInterface
  | releaseDeviceInterface
  | destroyPlugInInterface
  | releaseQueue
  | releaseDevice
deriving DecidableEq

/-- The trace of release calls made by PrivateImpl::~PrivateImpl, in source
order: close and release the device interface, destroy the plugin
interface, release the queue, release the device. -/
def privateImplDestructor (p : PrivateImpl) : List ReleaseAction :=
  (if p.hidDeviceInterface then
    [ReleaseAction.closeDeviceInterface, ReleaseAction.releaseDeviceInterface] else []) ++
  (if p.plugInInterface then [ReleaseAction.destroyPlugInInterface] else []) ++
  (if p.hidQueue then [ReleaseAction.releaseQueue] else []) ++
  (if p.hidDevice then [ReleaseAction.releaseDevice] else [])

/-- The release order asserted by the specification, written from the words
of the spec (stop/release queue, then close/release the interface handle,
then destroy the plugin object, then release the device), for comparison
with privateImplDestructor. -/
def specClaimedReleaseOrder (p : PrivateImpl) : List ReleaseAction :=
  (if p.hidQueue then [ReleaseAction.releaseQueue] else []) ++
  (if p.hidDeviceInterface then
    [ReleaseAction.closeDeviceInterface, ReleaseAction.releaseDeviceInterface] else []) ++
  (if p.plugInInterface then [ReleaseAction.destroyPlugInInterface] else []) ++
  (if p.hidDevice then [ReleaseAction.releaseDevice] else [])

/-- Oracle for the fallible driver stages Initialize runs through. -/
structure DriverOracle where
  findKeyboardOk : Bool
  createPluginInterfaceOk : Bool
  createDeviceInterfaceOk : Bool
  copyElementsResult : Except Int (List ElementDescriptor)

/-- The aggregate state of one HelperForKeyboardReaderIOKit session:
m_pimpl (reset to none on basic initialization failure), m_keys, the
error-logger functor flag, and the messages delivered to the logger. -/
structure Session where
  pimpl : Option PrivateImpl
  keys : List PerKeyData
  functorPresent : Bool
  log : List String
deriving DecidableEq

/-- Whether the basic stage chain of Initialize succeeds: FindKeyboard,
CreatePluginInterface, CreateDeviceInterface, PopulateVectorOfKeyInfo
(which cannot fail on a fresh session) and FindKeypressCookies. -/
def basicInitSucceeds (oracle : DriverOracle) (functorPresent : Bool) : Bool :=
  oracle.findKeyboardOk && oracle.createPluginInterfaceOk && oracle.createDeviceInterfaceOk &&
    (findKeypressCookies functorPresent populateVectorOfKeyInfo oracle.copyElementsResult).snd

/-- The basic part of Initialize: run the stage chain; on failure log the
initialization error and reset m_pimpl.  The queue stages (when enabled)
run afterwards and do not reset m_pimpl, so they are not modelled here. -/
def initializeBasic (oracle : DriverOracle) (functorPresent : Bool) : Session :=
  let scanKeys :=
    if oracle.findKeyboardOk && oracle.createPluginInterfaceOk && oracle.createDeviceInterfaceOk then
      (findKeypressCookies functorPresent populateVectorOfKeyInfo oracle.copyElementsResult).fst.keys
    else []
  if basicInitSucceeds oracle functorPresent then
    Session.mk (some (PrivateImpl.mk true true true false)) scanKeys functorPresent []
  else
    Session.mk none scanKeys functorPresent
      (LogErrorWhenFunctorIsntEmpty functorPresent [] "Failed basic keyboard initialization.")

/-- One iteration of the CountOfCurrentlyDepressedKeys loop: for a
resolved, non-ignored key, call getElementValue on its cookie (recorded in
the second component) and count a nonzero value; skip every other key. -/
def pollStep (getElementValue : Int → Int) (acc : Int × List Int) (k : PerKeyData) :
    Int × List Int :=
  if k.macCookieValue ≠ 0 ∧ k.mustBeIgnoredByOurApplication = false then
    ((if getElementValue k.macCookieValue ≠ 0 then acc.fst + 1 else acc.fst),
      acc.snd ++ [k.macCookieValue])
  else acc

/-- CountOfCurrentlyDepressedKeys (non-debug build): -1 with no driver call
when m_pimpl is null; otherwise one getElementValue call per resolved,
non-ignored key, counting the nonzero values.  The second component is the
list of cookies passed to getElementValue, i.e. the driver calls made. -/
def countOfCurrentlyDepressedKeys (s : Session) (getElementValue : Int → Int) : Int × List Int :=
  match s.pimpl with
  | none => (-1, [])
  | some _ => s.keys.foldl (pollStep getElementValue) (0, [])

/-- One event record dequeued by getNextEvent. -/
structure IOHIDEventStruct where
  type : Int
  elementCookie : Int
  value : Int
  timestamp : Int
deriving DecidableEq

/-- The getNextEvent loop of ReadFromQueue_Experimental over a list of
driver responses (IOReturn code plus the event written on success): keep
dequeuing while the code is kIOReturnSuccess, stop at the first other code.
Returns none when the modelled response list is exhausted while the driver
keeps succeeding, which cannot happen for the real driver. -/
def readFromQueueLoop : List (Int × IOHIDEventStruct) → Option (List IOHIDEventStruct × Int)
  | [] => none
  | (code, ev) :: rest =>
    if code = kIOReturnSuccess then
      (readFromQueueLoop rest).map (fun r => (ev :: r.fst, r.snd))
    else some ([], code)

/-- ReadFromQueue_Experimental: bail out when there is no queue; otherwise
drain the queue and, when the terminating status is not kIOReturnUnderrun,
report it through the error logger.  Returns the dequeued events in order
and the messages delivered to the logger. -/
def readFromQueue_Experimental (functorPresent : Bool) (hasQueue : Bool)
    (responses : List (Int × IOHIDEventStruct)) : Option (List IOHIDEventStruct × List String) :=
  if hasQueue then
    (readFromQueueLoop responses).map
      (fun r =>
        if r.snd ≠ kIOReturnUnderrun then
          (r.fst,
            LogErrorWhenFunctorIsntEmpty functorPresent []
              ("getNextEvent failed. code: " ++ toString r.snd))
        else (r.fst, []))
  else some ([], [])

/-- Unfolding of the declarative count over a cons cell. -/
theorem resolvedNonIgnoredCount_cons (k : PerKeyData) (t : List PerKeyData) :
    resolvedNonIgnoredCount (k :: t) =
      (if k.macCookieValue ≠ 0 ∧ k.mustBeIgnoredByOurApplication = false then 1 else 0) +
        resolvedNonIgnoredCount t := by
  by_cases hc : k.macCookieValue ≠ 0 ∧ k.mustBeIgnoredByOurApplication = false
  · simp [resolvedNonIgnoredCount, List.filter_cons, hc]
    omega
  · simp [resolvedNonIgnoredCount, List.filter_cons, hc]

/-- The score loop computes exactly the declarative count, for any starting
accumulator value. -/
theorem scoreOfKeys_foldl_aux (l : List PerKeyData) :
    ∀ n : Nat,
      l.foldl
        (fun score k =>
          if k.macCookieValue ≠ 0 ∧ k.mustBeIgnoredByOurApplication = false then score + 1
          else score)
        n = n + resolvedNonIgnoredCount l := by
  induction l with
  | nil => intro n; simp [resolvedNonIgnoredCount]
  | cons h t ih =>
    intro n
    rw [List.foldl_cons, resolvedNonIgnoredCount_cons]
    by_cases hc : h.macCookieValue ≠ 0 ∧ h.mustBeIgnoredByOurApplication = false
    · rw [if_pos hc, if_pos hc, ih]; omega
    · rw [if_neg hc, if_neg hc, ih]; omega

/-- The score loop equals the declarative count. -/
theorem scoreOfKeys_eq_resolvedNonIgnoredCount (l : List PerKeyData) :
    scoreOfKeys l = resolvedNonIgnoredCount l := by
  simpa [scoreOfKeys] using scoreOfKeys_foldl_aux l 0

/-- Claim C1: every run of FindKeypressCookies reports success exactly when
the number of Key Table entries with a bound cookie that are not marked
ignored strictly exceeds 40, and in particular reports failure whenever
that count is at most 40 even though individual keys were bound. -/
theorem findKeypressCookies_success_iff_count_gt_40
    (functorPresent : Bool) (keys : List PerKeyData)
    (copyResult : Except Int (List ElementDescriptor)) :
    ((findKeypressCookies functorPresent keys copyResult).snd = true ↔
      40 < resolvedNonIgnoredCount (findKeypressCookies functorPresent keys copyResult).fst.keys) ∧
    (resolvedNonIgnoredCount (findKeypressCookies functorPresent keys copyResult).fst.keys ≤ 40 →
      (findKeypressCookies functorPresent keys copyResult).snd = false) := by
  have hiff :
      (findKeypressCookies functorPresent keys copyResult).snd = true ↔
        40 < resolvedNonIgnoredCount (findKeypressCookies functorPresent keys copyResult).fst.keys := by
    cases copyResult <;> simp [findKeypressCookies, scoreOfKeys_eq_resolvedNonIgnoredCount]
  refine ⟨hiff, fun hle => ?_⟩
  cases hsnd : (findKeypressCookies functorPresent keys copyResult).snd
  · rfl
  · exact absurd (hiff.mp hsnd) (by omega)

/-- Witness for C1: on the freshly populated table with an empty descriptor
array, no key is bound, so the count is at most 40 and the run reports
failure. -/
theorem findKeypressCookies_success_iff_count_gt_40_witness :
    (findKeypressCookies true populateVectorOfKeyInfo (Except.ok [])).snd = false :=
  (findKeypressCookies_success_iff_count_gt_40 true populateVectorOfKeyInfo (Except.ok [])).2
    (by decide)

/-- Counterexample to claim C2: the populated Key Table does not have 250
entries; 250 is only the capacity passed to reserve. -/
theorem populateVectorOfKeyInfo_length_ne_250 :
    ¬ (populateVectorOfKeyInfo.length = 250) := by decide

/-- Claim C2 (amended): every populated Key Table has exactly 165 entries,
counting the sentinel at index 0 (usage ids 0 through 164, dense). -/
theorem populateVectorOfKeyInfo_length_eq_165 :
    populateVectorOfKeyInfo.length = 165 := by decide

/-- Claim C3: when any basic initialization stage fails (device matching,
plugin creation, device-interface creation, table population or element
resolution), m_pimpl is reset, so CountOfCurrentlyDepressedKeys returns the
negative sentinel -1 and passes no cookie to getElementValue (no driver
call). -/
theorem countOfCurrentlyDepressedKeys_neg_after_failed_init
    (oracle : DriverOracle) (functorPresent : Bool) (getElementValue : Int → Int)
    (hfail : basicInitSucceeds oracle functorPresent = false) :
    (initializeBasic oracle functorPresent).pimpl = none ∧
    countOfCurrentlyDepressedKeys (initializeBasic oracle functorPresent) getElementValue =
      (-1, []) ∧
    (countOfCurrentlyDepressedKeys (initializeBasic oracle functorPresent) getElementValue).fst
      < 0 := by
  refine ⟨?_, ?_, ?_⟩ <;> simp [initializeBasic, hfail, countOfCurrentlyDepressedKeys]

/-- Witness for C3: a session whose device matching failed polls as -1 with
no driver calls. -/
theorem countOfCurrentlyDepressedKeys_neg_after_failed_init_witness :
    countOfCurrentlyDepressedKeys
      (initializeBasic (DriverOracle.mk false true true (Except.ok [])) true) (fun _ => 1) =
      (-1, []) :=
  (countOfCurrentlyDepressedKeys_neg_after_failed_init
    (DriverOracle.mk false true true (Except.ok [])) true (fun _ => 1) (by decide)).2.1

/-- Counterexample to claim C4: with all four handles held, the destructor
does not release in the claimed order (queue first); it releases the queue
only after closing and releasing the device interface and destroying the
plugin. -/
theorem privateImplDestructor_ne_specClaimedReleaseOrder :
    privateImplDestructor (PrivateImpl.mk true true true true) ≠
      specClaimedReleaseOrder (PrivateImpl.mk true true true true) := by decide

/-- Claim C4 (amended): whatever subset of handles is held, the destructor
releases them in the fixed order close/release device interface, destroy
plugin, release queue, release device — the queue is released third, not
first, so the order is not the exact reverse of acquisition. -/
theorem privateImplDestructor_release_order (p : PrivateImpl) :
    List.Sublist (privateImplDestructor p)
      [ReleaseAction.closeDeviceInterface, ReleaseAction.releaseDeviceInterface,
        ReleaseAction.destroyPlugInInterface, ReleaseAction.releaseQueue,
        ReleaseAction.releaseDevice] ∧
    privateImplDestructor (PrivateImpl.mk true true true true) =
      [ReleaseAction.closeDeviceInterface, ReleaseAction.releaseDeviceInterface,
        ReleaseAction.destroyPlugInInterface, ReleaseAction.releaseQueue,
        ReleaseAction.releaseDevice] := by
  rcases p with ⟨a, b, c, d⟩
  cases a <;> cases b <;> cases c <;> cases d <;> exact ⟨by decide, by decide⟩

/-- Witness for C4 (amended) at a concrete handle set. -/
theorem privateImplDestructor_release_order_witness :
    List.Sublist (privateImplDestructor (PrivateImpl.mk true true false true))
      [ReleaseAction.closeDeviceInterface, ReleaseAction.releaseDeviceInterface,
        ReleaseAction.destroyPlugInInterface, ReleaseAction.releaseQueue,
        ReleaseAction.releaseDevice] :=
  (privateImplDestructor_release_order (PrivateImpl.mk true true false true)).1

/-- Counterexample to claim C5: a descriptor that has a cookie but no usage
field is not skipped silently — the scan delivers a message through the
error-logger callback. -/
theorem processElement_missing_usage_is_reported :
    ¬ ((processElement (ScanState.mk true populateVectorOfKeyInfo [])
        (ElementDescriptor.mk (some (CFValue.num 5)) none none)).log = []) := by decide

/-- Claim C5 (amended): a descriptor missing or type-mismatching any of the
three required fields is skipped — no table slot is written and the scan
continues — but only the missing-cookie case is silent; a descriptor with a
cookie but a missing or non-numeric usage or usage page is reported through
the error-logger callback with a fixed message. -/
theorem processElement_malformed_descriptor_skipped (st : ScanState) (e : ElementDescriptor) :
    (getNumberValue e.cookieField = none → processElement st e = st) ∧
    (∀ c, getNumberValue e.cookieField = some c → getNumberValue e.usageField = none →
      processElement st e =
        { st with
          log := LogErrorWhenFunctorIsntEmpty st.functorPresent st.log
            "A cookie without a usage id?" }) ∧
    (∀ c u, getNumberValue e.cookieField = some c → getNumberValue e.usageField = some u →
      getNumberValue e.usagePageField = none →
      processElement st e =
        { st with
          log := LogErrorWhenFunctorIsntEmpty st.functorPresent st.log
            "A cookie without a usage page?" }) := by
  refine ⟨fun hc => ?_, fun c hc hu => ?_, fun c u hc hu hp => ?_⟩
  · simp [processElement, hc]
  · simp [processElement, hc, hu]
  · simp [processElement, hc, hu, hp]

/-- Witness for C5 (amended): a descriptor with no cookie field is skipped
with the state unchanged. -/
theorem processElement_malformed_descriptor_skipped_witness :
    processElement (ScanState.mk true populateVectorOfKeyInfo [])
        (ElementDescriptor.mk none (some (CFValue.num 4)) (some (CFValue.num 7))) =
      ScanState.mk true populateVectorOfKeyInfo [] :=
  (processElement_malformed_descriptor_skipped (ScanState.mk true populateVectorOfKeyInfo [])
    (ElementDescriptor.mk none (some (CFValue.num 4)) (some (CFValue.num 7)))).1 rfl

/-- A keyboard-page element descriptor with the given cookie and usage. -/
def keyboardElement (cookie usage : Int) : ElementDescriptor :=
  ElementDescriptor.mk (some (CFValue.num cookie)) (some (CFValue.num usage))
    (some (CFValue.num kHIDPage_KeyboardOrKeypad))

/-- Claim C7: a keyboard-page descriptor whose usage code is at least the
table size, or negative, is ignored completely: the scan state — table,
log, hence also the resolved count — is unchanged. -/
theorem processElement_out_of_range_usage_ignored (st : ScanState) (cookie usage : Int)
    (hrange : (st.keys.length : Int) ≤ usage ∨ usage < 0) :
    processElement st (keyboardElement cookie usage) = st := by
  rcases hrange with hge | hneg
  · simp [processElement, keyboardElement, getNumberValue, hge]
  · by_cases hge : (st.keys.length : Int) ≤ usage
    · simp [processElement, keyboardElement, getNumberValue, hge]
    · simp [processElement, keyboardElement, getNumberValue, hge, hneg]

/-- Witness for C7: usage 165 is one past the table range and is ignored on
the freshly populated table. -/
theorem processElement_out_of_range_usage_ignored_witness :
    processElement (ScanState.mk true populateVectorOfKeyInfo []) (keyboardElement 5 165) =
      ScanState.mk true populateVectorOfKeyInfo [] :=
  processElement_out_of_range_usage_ignored (ScanState.mk true populateVectorOfKeyInfo []) 5 165
    (Or.inl (by decide))

/-- Claim C6: when two keyboard-page descriptors report the same in-range
usage code (non-debug build), processing the second leaves the scan state
exactly as it was after the first — the handle is not overwritten, and
since the state is unchanged the resolved count cannot count the key a
second time; the slot keeps the first cookie. -/
theorem processElement_duplicate_usage_keeps_first
    (st : ScanState) (u c1 c2 : Int)
    (hu0 : 0 ≤ u) (hu : u < (st.keys.length : Int))
    (hunbound : (st.keys[u.toNat]?).map PerKeyData.macCookieValue = some 0)
    (hc1 : c1 ≠ 0) :
    processElement (processElement st (keyboardElement c1 u)) (keyboardElement c2 u) =
      processElement st (keyboardElement c1 u) ∧
    ((processElement st (keyboardElement c1 u)).keys[u.toNat]?).map
        PerKeyData.macCookieValue = some c1 := by
  cases hk : st.keys[u.toNat]? with
  | none => rw [hk] at hunbound; simp at hunbound
  | some k =>
    rw [hk] at hunbound
    simp only [Option.map_some'] at hunbound
    have hk0 : k.macCookieValue = 0 := by
      injection hunbound
    have hlt : u.toNat < st.keys.length := by omega
    have h1 : processElement st (keyboardElement c1 u) =
        { st with keys := st.keys.set u.toNat { k with macCookieValue := c1 } } := by
      simp [processElement, keyboardElement, getNumberValue, hk, hk0,
        if_neg (not_le.mpr hu), if_neg (not_lt.mpr hu0)]
    have hget : (st.keys.set u.toNat { k with macCookieValue := c1 })[u.toNat]? =
        some { k with macCookieValue := c1 } :=
      List.getElem?_set_eq_of_lt _ hlt
    constructor
    · rw [h1]
      simp [processElement, keyboardElement, getNumberValue, hget, hc1, List.length_set,
        if_neg (not_le.mpr hu), if_neg (not_lt.mpr hu0)]
    · rw [h1]
      simp [hget]

/-- Witness for C6: usage 4 (kHIDUsage_KeyboardA) reported twice with
cookies 5 and then 9 keeps the first binding and changes nothing on the
second report. -/
theorem processElement_duplicate_usage_keeps_first_witness :
    processElement
        (processElement (ScanState.mk true populateVectorOfKeyInfo []) (keyboardElement 5 4))
        (keyboardElement 9 4) =
      processElement (ScanState.mk true populateVectorOfKeyInfo []) (keyboardElement 5 4) :=
  (processElement_duplicate_usage_keeps_first (ScanState.mk true populateVectorOfKeyInfo [])
    4 5 9 (by decide) (by decide) (by decide) (by decide)).1

/-- The getNextEvent loop dequeues exactly the successful events before the
first non-success status and stops there with that status. -/
theorem readFromQueueLoop_spec (code : Int) (junk : IOHIDEventStruct)
    (rest : List (Int × IOHIDEventStruct)) (hcode : code ≠ kIOReturnSuccess) :
    ∀ evs : List IOHIDEventStruct,
      readFromQueueLoop (evs.map (fun e => (kIOReturnSuccess, e)) ++ (code, junk) :: rest) =
        some (evs, code) := by
  intro evs
  induction evs with
  | nil => simp [readFromQueueLoop, hcode]
  | cons e t ih => simp [readFromQueueLoop, ih]

/-- Claim C8: a drain call retrieves queued events one at a time, in order,
until the driver reports a non-success status; kIOReturnUnderrun terminates
the loop with no error reported, while any other non-success status
terminates the drain and is reported through the logging callback. -/
theorem readFromQueue_drain_contract (functorPresent : Bool)
    (evs : List IOHIDEventStruct) (junk : IOHIDEventStruct) (code : Int)
    (rest : List (Int × IOHIDEventStruct)) (hcode : code ≠ kIOReturnSuccess) :
    readFromQueue_Experimental functorPresent true
        (evs.map (fun e => (kIOReturnSuccess, e)) ++ (code, junk) :: rest) =
      some (evs,
        if code = kIOReturnUnderrun then []
        else
          LogErrorWhenFunctorIsntEmpty functorPresent []
            ("getNextEvent failed. code: " ++ toString code)) := by
  have hloop := readFromQueueLoop_spec code junk rest hcode evs
  by_cases hu : code = kIOReturnUnderrun
  · subst hu
    simp [readFromQueue_Experimental, hloop]
  · simp [readFromQueue_Experimental, hloop, hu]

/-- Witness for C8: the driver yields two events then fails with status 1
(not underrun); the drain returns the two events and reports one error. -/
theorem readFromQueue_drain_contract_witness :
    readFromQueue_Experimental true true
        [(kIOReturnSuccess, IOHIDEventStruct.mk 2 11 1 0),
          (kIOReturnSuccess, IOHIDEventStruct.mk 2 12 0 0),
          (1, IOHIDEventStruct.mk 0 0 0 0)] =
      some ([IOHIDEventStruct.mk 2 11 1 0, IOHIDEventStruct.mk 2 12 0 0],
        ["getNextEvent failed. code: 1"]) := by
  have h := readFromQueue_drain_contract true
    [IOHIDEventStruct.mk 2 11 1 0, IOHIDEventStruct.mk 2 12 0 0]
    (IOHIDEventStruct.mk 0 0 0 0) 1 [] (by decide)
  simpa [kIOReturnSuccess, kIOReturnUnderrun, LogErrorWhenFunctorIsntEmpty] using h

/-- Counterexample to claim C9: the sentinel at index 0 of the populated
table is not marked ignored — the populate call passes no ignore flag for
it, so the flag defaults to false. -/
theorem populateVectorOfKeyInfo_sentinel_not_marked_ignored :
    ¬ ((populateVectorOfKeyInfo[0]?).map PerKeyData.mustBeIgnoredByOurApplication =
        some true) := by decide

/-- Claim C9 (amended): the entry at index 0 of every populated table is the
placeholder with usage 0, cookie 0 and ignore flag false; it stays out of
polling, queueing and the success count only while its cookie stays 0 (no
entry of the fresh table is counted), not because of the ignored mark. -/
theorem populateVectorOfKeyInfo_sentinel_entry :
    populateVectorOfKeyInfo[0]? =
      some (PerKeyData.mk "BOGUS PLACEHOLDER AT INDEX ZERO" 0 0 false) ∧
    resolvedNonIgnoredCount populateVectorOfKeyInfo = 0 :=
  ⟨rfl, by decide⟩

/-- Binding a keyboard-page descriptor with usage 0 into a table whose head
has no cookie yet: the cookie lands in the head slot. -/
theorem processElement_usage_zero_binds_head (functorPresent : Bool) (log : List String)
    (k : PerKeyData) (t : List PerKeyData) (c : Int) (hk0 : k.macCookieValue = 0) :
    processElement (ScanState.mk functorPresent (k :: t) log) (keyboardElement c 0) =
      ScanState.mk functorPresent ({ k with macCookieValue := c } :: t) log := by
  have hlen : ¬ ((((k :: t).length : Nat) : Int) ≤ 0) := by
    simp only [List.length_cons]
    omega
  simp [processElement, keyboardElement, getNumberValue, hlen, hk0]

/-- Anything already recorded as polled stays polled through the rest of
the CountOfCurrentlyDepressedKeys loop. -/
theorem mem_foldl_pollStep (getElementValue : Int → Int) :
    ∀ (keys : List PerKeyData) (acc : Int × List Int) (x : Int),
      x ∈ acc.snd → x ∈ (keys.foldl (pollStep getElementValue) acc).snd := by
  intro keys
  induction keys with
  | nil => intro acc x hx; exact hx
  | cons k t ih =>
    intro acc x hx
    apply ih
    by_cases hcond : k.macCookieValue ≠ 0 ∧ k.mustBeIgnoredByOurApplication = false
    · simp only [pollStep, if_pos hcond]
      exact List.mem_append_left _ hx
    · simpa only [pollStep, if_neg hcond] using hx

/-- Every resolved, non-ignored key in the table gets polled: its cookie is
passed to getElementValue by the CountOfCurrentlyDepressedKeys loop. -/
theorem cookie_polled_of_resolved_nonignored (getElementValue : Int → Int) :
    ∀ (keys : List PerKeyData) (acc : Int × List Int) (k : PerKeyData),
      k ∈ keys → k.macCookieValue ≠ 0 → k.mustBeIgnoredByOurApplication = false →
      k.macCookieValue ∈ (keys.foldl (pollStep getElementValue) acc).snd := by
  intro keys
  induction keys with
  | nil => intro acc k hk; cases hk
  | cons h t ih =>
    intro acc k hk hne hig
    rcases List.mem_cons.mp hk with heq | hmem
    · subst heq
      rw [List.foldl_cons]
      apply mem_foldl_pollStep
      simp [pollStep, hne, hig]
    · exact ih _ k hmem hne hig

/-- Claim C10: a keyboard-page descriptor with usage code 0 binds its cookie
into the sentinel slot at index 0 of the freshly populated table; the slot
is not marked ignored, so the success count now counts it (count 1 on the
otherwise unbound table) and CountOfCurrentlyDepressedKeys polls its cookie
through getElementValue. -/
theorem usage_zero_binds_and_polls_sentinel (functorPresent : Bool) (c : Int)
    (getElementValue : Int → Int) (hc : c ≠ 0) :
    ((processElement (ScanState.mk functorPresent populateVectorOfKeyInfo [])
        (keyboardElement c 0)).keys[0]?).map PerKeyData.macCookieValue = some c ∧
    ((processElement (ScanState.mk functorPresent populateVectorOfKeyInfo [])
        (keyboardElement c 0)).keys[0]?).map PerKeyData.mustBeIgnoredByOurApplication =
      some false ∧
    resolvedNonIgnoredCount
      (processElement (ScanState.mk functorPresent populateVectorOfKeyInfo [])
        (keyboardElement c 0)).keys = 1 ∧
    c ∈ (countOfCurrentlyDepressedKeys
        (Session.mk (some (PrivateImpl.mk true true true false))
          (processElement (ScanState.mk functorPresent populateVectorOfKeyInfo [])
            (keyboardElement c 0)).keys
          functorPresent [])
        getElementValue).snd := by
  have hpop : populateVectorOfKeyInfo =
      PerKeyData.mk "BOGUS PLACEHOLDER AT INDEX ZERO" 0 0 false ::
        populateVectorOfKeyInfo.tail := rfl
  have hbind :
      processElement (ScanState.mk functorPresent populateVectorOfKeyInfo [])
          (keyboardElement c 0) =
        ScanState.mk functorPresent
          (PerKeyData.mk "BOGUS PLACEHOLDER AT INDEX ZERO" 0 c false ::
            populateVectorOfKeyInfo.tail) [] := by
    rw [hpop]
    exact processElement_usage_zero_binds_head functorPresent []
      (PerKeyData.mk "BOGUS PLACEHOLDER AT INDEX ZERO" 0 0 false)
      populateVectorOfKeyInfo.tail c rfl
  rw [hbind]
  have htail : resolvedNonIgnoredCount populateVectorOfKeyInfo.tail = 0 := by decide
  refine ⟨rfl, rfl, ?_, ?_⟩
  · rw [resolvedNonIgnoredCount_cons, htail]
    simp [hc]
  · apply cookie_polled_of_resolved_nonignored getElementValue _ _
      (PerKeyData.mk "BOGUS PLACEHOLDER AT INDEX ZERO" 0 c false)
      (List.mem_cons_self _ _) hc rfl

/-- Witness for C10: cookie 5 reported at usage 0 lands in the sentinel
slot. -/
theorem usage_zero_binds_and_polls_sentinel_witness :
    ((processElement (ScanState.mk true populateVectorOfKeyInfo [])
        (keyboardElement 5 0)).keys[0]?).map PerKeyData.macCookieValue = some 5 :=
  (usage_zero_binds_and_polls_sentinel true 5 (fun _ => 1) (by decide)).1
